import Mathlib

/-!
Shallow embedding of the leads-management data-access layer:
the Firestore document-store adapter (`src/services/firestore.ts`),
the REST-compatibility facade (`src/services/api.ts`), the dashboard
query controller (`src/components/LeadsDashboard.tsx`) and the
mark-contacted modal (`ContactStatusModal`).

JavaScript string operations used by the code (`toLowerCase`, `trim`,
`split(',')`, `includes`) are modelled by executable character-list
functions so that concrete instances evaluate inside the kernel.
Firestore `Timestamp` values are modelled by `Nat` ordering keys; the
ISO-8601 conversion performed on read is order- and identity-preserving
and is abstracted to the identity on that key.
-/

namespace ClientLeads

/-- Lower-case a single character, modelling JS `toLowerCase` on ASCII. -/
def lowerChar (c : Char) : Char :=
  if c.isUpper then Char.ofNat (c.toNat + 32) else c

/-- Model of JS `String.prototype.toLowerCase`. -/
def jsToLower (s : String) : String :=
  ⟨s.data.map lowerChar⟩

/-- Whitespace characters removed by JS `String.prototype.trim`. -/
def isJsWhitespace (c : Char) : Bool :=
  c == ' ' || c == '\t' || c == '\n' || c == '\r'

/-- Model of JS `String.prototype.trim`. -/
def jsTrim (s : String) : String :=
  ⟨((s.data.dropWhile isJsWhitespace).reverse.dropWhile isJsWhitespace).reverse⟩

/-- Does the character list `hay` contain `needle` as a contiguous run?
Models JS `String.prototype.includes` (character-wise). -/
def charsIncludes (needle : List Char) : List Char → Bool
  | [] => needle.isEmpty
  | c :: cs => needle.isPrefixOf (c :: cs) || charsIncludes needle cs

/-- Model of JS `hay.includes(needle)` on strings. -/
def strIncludes (hay needle : String) : Bool :=
  charsIncludes needle.data hay.data

/-- Split a character list at commas, accumulator style.
Models JS `String.prototype.split(',')`. -/
def splitCommaAux : List Char → List Char → List (List Char)
  | [], acc => [acc.reverse]
  | c :: cs, acc =>
      if c == ',' then acc.reverse :: splitCommaAux cs []
      else splitCommaAux cs (c :: acc)

/-- Model of JS `s.split(',')`. -/
def jsSplitComma (s : String) : List String :=
  (splitCommaAux s.data []).map (fun cs => ⟨cs⟩)

/-- The raw field set of a `leads` document as stored in Firestore
(`interface Lead` in `firestore.ts`, minus the read-side `id`).
`status` may be absent (`none`) or the empty string, both of which are
JS-falsy; `created_at` is the stored timestamp modelled as a `Nat` key. -/
structure StoredData where
  business_name : String
  place_id : Option String := none
  address : Option String := none
  phone : Option String := none
  email : Option String := none
  website : Option String := none
  category : Option String := none
  rating : Option Int := none
  total_ratings : Option Int := none
  lat : Option Int := none
  lng : Option Int := none
  tier_reached : Option Int := none
  status : Option String := none
  is_small_business : Option Bool := none
  small_business_score : Option Int := none
  is_informal_business : Option Bool := none
  informality_score : Option Int := none
  has_website : Option Bool := none
  social_media_only : Option Bool := none
  created_at : Nat := 0
  updated_at : Option Nat := none
deriving DecidableEq, Repr

/-- A Firestore document snapshot: the document id together with its data. -/
structure FsDoc where
  id : String
  data : StoredData
deriving DecidableEq, Repr

/-- The normalized `Lead` shape returned by the document-store adapter
(`interface Lead` in `firestore.ts`). `status` is typed optional in TS,
which the dashboard code accounts for with `!lead.status` checks. -/
structure Lead where
  id : String
  business_name : String
  place_id : Option String := none
  address : Option String := none
  phone : Option String := none
  email : Option String := none
  website : Option String := none
  category : Option String := none
  rating : Option Int := none
  total_ratings : Option Int := none
  lat : Option Int := none
  lng : Option Int := none
  tier_reached : Option Int := none
  status : Option String := none
  is_small_business : Option Bool := none
  small_business_score : Option Int := none
  is_informal_business : Option Bool := none
  informality_score : Option Int := none
  has_website : Option Bool := none
  social_media_only : Option Bool := none
  created_at : Nat := 0
  updated_at : Option Nat := none
deriving DecidableEq, Repr

/-- Read-side normalization `docToLead` (`firestore.ts` lines 129-156):
copies every field, and maps `data.status || 'new'` so that a missing or
empty stored status becomes `'new'`. -/
def docToLead (doc : FsDoc) : Lead :=
  { id := doc.id
    business_name := doc.data.business_name
    place_id := doc.data.place_id
    address := doc.data.address
    phone := doc.data.phone
    email := doc.data.email
    website := doc.data.website
    category := doc.data.category
    rating := doc.data.rating
    total_ratings := doc.data.total_ratings
    lat := doc.data.lat
    lng := doc.data.lng
    tier_reached := doc.data.tier_reached
    status := some (match doc.data.status with
      | some s => if s == "" then "new" else s
      | none => "new")
    is_small_business := doc.data.is_small_business
    small_business_score := doc.data.small_business_score
    is_informal_business := doc.data.is_informal_business
    informality_score := doc.data.informality_score
    has_website := doc.data.has_website
    social_media_only := doc.data.social_media_only
    created_at := doc.data.created_at
    updated_at := doc.data.updated_at }

/-- Insert a document into a list already ordered by `created_at`
descending, keeping that order. -/
def insertDesc (d : FsDoc) : List FsDoc → List FsDoc
  | [] => [d]
  | x :: xs =>
      if x.data.created_at ≤ d.data.created_at then d :: x :: xs
      else x :: insertDesc d xs

/-- Model of the Firestore `orderBy('created_at', 'desc')` constraint:
the collection ordered by creation timestamp descending. -/
def sortByCreatedDesc : List FsDoc → List FsDoc
  | [] => []
  | x :: xs => insertDesc x (sortByCreatedDesc xs)

/-- Aggregate stats shape (`interface LeadsStats`). -/
structure LeadsStats where
  all : Nat
  notContacted : Nat
  contacted : Nat
deriving DecidableEq, Repr

/-- Query parameters of `leadsService.getAll`
(`interface LeadsQueryParams`); the destructuring defaults
`status = 'all'`, `page = 1`, `limit = 15` are the field defaults.
`category` is accepted but never read by `getAll`. -/
structure LeadsQueryParams where
  status : String := "all"
  category : Option String := none
  search : Option String := none
  page : Nat := 1
  limit : Nat := 15
deriving DecidableEq, Repr

/-- Result shape of `leadsService.getAll`. -/
structure LeadsListResult where
  success : Bool
  data : List Lead
  total : Nat
  page : Nat
  limit : Nat
  totalPages : Nat
  stats : LeadsStats
deriving DecidableEq, Repr

/-- The Firestore membership constraint
`where('status', 'in', ['contacted', 'qualified', 'converted'])`,
evaluated against the stored (pre-normalization) status field. -/
def storedStatusInContactedSet (d : FsDoc) : Bool :=
  d.data.status == some "contacted" || d.data.status == some "qualified"
    || d.data.status == some "converted"

/-- `leadsService.getStats` (`firestore.ts` lines 220-237): two
whole-collection count queries — an unfiltered `getCountFromServer` and
one with the contacted membership filter — with
`notContacted = all - contacted`. -/
def getStats (store : List FsDoc) : LeadsStats :=
  let all := store.length
  let contacted := (store.filter storedStatusInContactedSet).length
  { all := all, contacted := contacted, notContacted := all - contacted }

/-- The store-side status constraint built by `getAll`: only
`status = 'contacted'` pushes a filter to Firestore; every other status
value leaves the query unconstrained. -/
def statusFilteredDocs (store : List FsDoc) (status : String) : List FsDoc :=
  if status == "contacted" then store.filter storedStatusInContactedSet else store

/-- `const fetchLimit = status === 'not_contacted' ? limit * 3 : limit`. -/
def fetchLimitOf (status : String) (lim : Nat) : Nat :=
  if status == "not_contacted" then lim * 3 else lim

/-- The documents returned by the Firestore query built in `getAll`:
status constraint, `orderBy('created_at', 'desc')`, `limit(fetchLimit)`. -/
def fetchedDocs (store : List FsDoc) (status : String) (lim : Nat) : List FsDoc :=
  (sortByCreatedDesc (statusFilteredDocs store status)).take (fetchLimitOf status lim)

/-- JS falsiness of an optional status string (`!lead.status`):
true for `undefined`/`null` and for the empty string. -/
def statusFalsy : Option String → Bool
  | none => true
  | some s => s == ""

/-- The client-side not-contacted predicate in `getAll`
(`lead.status === 'new' || !lead.status`). -/
def notContactedLead (l : Lead) : Bool :=
  l.status == some "new" || statusFalsy l.status

/-- The client-side search predicate in `getAll`
(`lead.business_name.toLowerCase().includes(searchLower)`). -/
def leadNameIncludes (l : Lead) (searchLower : String) : Bool :=
  strIncludes (jsToLower l.business_name) searchLower

/-- The client-side status filter step of `getAll`: only
`'not_contacted'` filters client-side. -/
def clientStatusFiltered (status : String) (leads : List Lead) : List Lead :=
  if status == "not_contacted" then leads.filter notContactedLead else leads

/-- The client-side search filter step of `getAll` (`if (search) { ... }`;
an absent or empty search string is JS-falsy and skips the filter). -/
def clientSearchFiltered (search : Option String) (leads : List Lead) : List Lead :=
  match search with
  | none => leads
  | some s => if s == "" then leads else leads.filter (fun l => leadNameIncludes l (jsToLower s))

/-- The array `leads` in `getAll` after fetching, normalization and both
client-side filters, immediately before the pagination slice. -/
def filteredLeads (store : List FsDoc) (ps : LeadsQueryParams) : List Lead :=
  clientSearchFiltered ps.search
    (clientStatusFiltered ps.status ((fetchedDocs store ps.status ps.limit).map docToLead))

/-- `Math.ceil(total / limit)` on naturals (for positive `limit`). -/
def natCeilDiv (total lim : Nat) : Nat :=
  (total + lim - 1) / lim

/-- `leadsService.getAll` (`firestore.ts` lines 161-217): builds the
query, normalizes, filters client-side, then slices
`leads.slice(0, limit)` and attaches whole-collection stats, with
`total = stats.all` and `totalPages = Math.ceil(total / limit)`. -/
def getAll (store : List FsDoc) (ps : LeadsQueryParams) : LeadsListResult :=
  let leads := (filteredLeads store ps).take ps.limit
  let stats := getStats store
  let total := stats.all
  { success := true
    data := leads
    total := total
    page := ps.page
    limit := ps.limit
    totalPages := natCeilDiv total ps.limit
    stats := stats }

/-- The lead shape seen through the REST-compatibility facade
(`api.ts`): the normalized lead with the `_id` public-key alias added by
`toAPILead` (the spread keeps `id` as well). -/
structure APILead extends Lead where
  _id : String
deriving DecidableEq, Repr

/-- `toAPILead` (`api.ts`): `{ ...lead, _id: lead.id }`. -/
def toAPILead (l : Lead) : APILead :=
  { toLead := l, _id := l.id }

/-- Dashboard view state set by `fetchLeads`
(`setLeads` / `setTotalPages` / `setTotal` / `setStats`). -/
structure DashboardState where
  leads : List APILead
  totalPages : Nat
  total : Nat
  stats : LeadsStats
deriving DecidableEq, Repr

/-- Main-category extraction (`LeadsDashboard.tsx`):
`lead.category.split(',')[0].trim()`. -/
def mainCategory (c : String) : String :=
  jsTrim ((jsSplitComma c).headD "")

/-- The thick-path category predicate (`fetchLeads` lines 99-103):
`if (!lead.category) return false;` then compare the lower-cased main
category with the lower-cased filter. -/
def categoryMatches (categoryFilter : String) (l : APILead) : Bool :=
  match l.category with
  | none => false
  | some c =>
      if c == "" then false
      else jsToLower (mainCategory c) == jsToLower categoryFilter

/-- The contacted classification
(`LeadsDashboard.tsx` line 248, `ContactStatusModal` line 331, and the
thick-path contacted filter):
`status === 'contacted' || status === 'qualified' || status === 'converted'`. -/
def apiIsContacted (l : APILead) : Bool :=
  l.status == some "contacted" || l.status == some "qualified"
    || l.status == some "converted"

/-- The thick-path not-contacted filter (`fetchLeads` lines 110-114):
`lead.status === 'new' || !lead.status`. -/
def apiNotContacted (l : APILead) : Bool :=
  l.status == some "new" || statusFalsy l.status

/-- The thick path of `fetchLeads` (`LeadsDashboard.tsx` lines 98-139):
filter the cached snapshot by category, status and search in memory,
paginate with `slice(startIndex, startIndex + itemsPerPage)`,
set `totalPages = Math.ceil(len / itemsPerPage) || 1`, and recompute
stats from the filtered subset. -/
def thickPath (allLeadsForCategories : List APILead)
    (categoryFilter statusFilter searchQuery : String)
    (currentPage itemsPerPage : Nat) : DashboardState :=
  let f1 := allLeadsForCategories.filter (categoryMatches categoryFilter)
  let f2 :=
    if statusFilter == "contacted" then f1.filter apiIsContacted
    else if statusFilter == "not_contacted" then f1.filter apiNotContacted
    else f1
  let f3 :=
    if searchQuery == "" then f2
    else f2.filter (fun l => strIncludes (jsToLower l.business_name) (jsToLower searchQuery))
  let startIndex := (currentPage - 1) * itemsPerPage
  let paginated := (f3.drop startIndex).take itemsPerPage
  let tp0 := natCeilDiv f3.length itemsPerPage
  let contactedCount := (f3.filter apiIsContacted).length
  { leads := paginated
    totalPages := if tp0 == 0 then 1 else tp0
    total := f3.length
    stats :=
      { all := f3.length
        contacted := contactedCount
        notContacted := f3.length - contactedCount } }

/-- The thin path of `fetchLeads` (`LeadsDashboard.tsx` lines 140-155):
delegate to `leadsAPI.getAll` with
`{ status, search: searchQuery || undefined, page, limit }` and adopt
the response's data, totalPages, total and stats. -/
def thinPath (store : List FsDoc) (statusFilter searchQuery : String)
    (currentPage itemsPerPage : Nat) : DashboardState :=
  let response := getAll store
    { status := statusFilter
      search := if searchQuery == "" then none else some searchQuery
      page := currentPage
      limit := itemsPerPage }
  { leads := response.data.map toAPILead
    totalPages := response.totalPages
    total := response.total
    stats := response.stats }

/-- The category snapshot fetched once by the dashboard
(`leadsAPI.getAll({ limit: 1000 })`, `LeadsDashboard.tsx` lines 67-79). -/
def fetchCategoriesSnapshot (store : List FsDoc) : List APILead :=
  ((getAll store { limit := 1000 }).data).map toAPILead

/-- A note document as created by `notesService.create`. -/
structure NoteRecord where
  id : String
  lead_id : String
  content : String
  contact_method : Option String := none
  contact_date : Option String := none
  created_by : String
  created_at : String
  updated_at : Option String := none
deriving DecidableEq, Repr

/-- Result of `notesService.create`. -/
structure NoteCreateResult where
  success : Bool
  data : NoteRecord
deriving DecidableEq, Repr

/-- `notesService.create` (`firestore.ts` lines 335-356): writes the
note document unconditionally — there is no content-length validation in
the backend service. `freshId` is the id alloted by `addDoc` and
`nowIso` the `new Date().toISOString()` value. -/
def notesCreate (leadId content createdBy : String)
    (contactMethod contactDate : Option String)
    (freshId nowIso : String) : NoteCreateResult :=
  { success := true
    data :=
      { id := freshId
        lead_id := leadId
        content := content
        contact_method := contactMethod
        contact_date := contactDate
        created_by := createdBy
        created_at := nowIso } }

/-- Observable trace of one `ContactStatusModal.handleSubmit` run:
which backend calls were issued, what error (if any) was surfaced, and
whether the operation reported success with the status change persisted. -/
structure SubmitTrace where
  validationError : Option String
  updateCalled : Bool
  noteCreateCalled : Bool
  noteFailureLogged : Bool
  surfacedError : Option String
  reportedSuccess : Bool
  statusPersisted : Bool
deriving DecidableEq, Repr

/-- `ContactStatusModal.handleSubmit` (`ContactStatusModal.tsx` lines
370-405). `requiresNotes = !isContacted(lead)`; a trimmed note shorter
than 10 characters is rejected with a validation error before any
backend call; otherwise the status update runs first, and the note write
(attempted only when `requiresNotes && notes.trim() && user`) is wrapped
in its own try/catch whose failure is only logged (`console.warn`).
`updateSucceeds` and `noteCreateSucceeds` model the outcomes of the two
asynchronous backend calls. -/
def handleSubmit (lead : APILead) (notes : String)
    (userPresent updateSucceeds noteCreateSucceeds : Bool) : SubmitTrace :=
  let requiresNotes : Bool := !(apiIsContacted lead)
  if requiresNotes = true ∧ (jsTrim notes).length < 10 then
    { validationError := some "Please add notes about the contact (minimum 10 characters)"
      updateCalled := false
      noteCreateCalled := false
      noteFailureLogged := false
      surfacedError := none
      reportedSuccess := false
      statusPersisted := false }
  else if updateSucceeds = true then
    let noteAttempted := requiresNotes && !(jsTrim notes == "") && userPresent
    { validationError := none
      updateCalled := true
      noteCreateCalled := noteAttempted
      noteFailureLogged := noteAttempted && !noteCreateSucceeds
      surfacedError := none
      reportedSuccess := true
      statusPersisted := true }
  else
    { validationError := none
      updateCalled := true
      noteCreateCalled := false
      noteFailureLogged := false
      surfacedError := some "Failed to update status. Please try again."
      reportedSuccess := false
      statusPersisted := false }

/-- Error taxonomy of the adapter: a missing record versus a
network/transport failure. -/
inductive ServiceError where
  | notFound (msg : String)
  | transport (msg : String)
deriving DecidableEq, Repr

/-- Document lookup by id, modelling `getDoc(doc(collection, id))`. -/
def lookupDoc (store : List FsDoc) (i : String) : Option FsDoc :=
  store.find? (fun d => d.id == i)

/-- `leadsService.getById` (`firestore.ts` lines 240-287): throws
`Error('Lead not found')` when the snapshot does not exist, otherwise
normalizes the document. The child look-ups (contacts, social profiles,
enrichment log) are plain `lead_id` filters on other collections and are
not involved in any claim, so only the lead is returned here. -/
def leadsGetById (store : List FsDoc) (i : String) : Except ServiceError Lead :=
  match lookupDoc store i with
  | none => .error (.notFound "Lead not found")
  | some d => .ok (docToLead d)

/-- `leadsService.update` (`firestore.ts` lines 290-305). The payload at
every call site is `{ status }`; the `id` field is deleted before the
write and `updated_at` is always set to the current time. Firestore's
`updateDoc` rejects with a not-found error when the target document does
not exist (documented SDK semantics); on success the adapter re-reads
the document and normalizes it. -/
def leadsUpdate (store : List FsDoc) (i : String)
    (statusPayload : Option String) (nowTs : Nat) :
    Except ServiceError (Lead × List FsDoc) :=
  match lookupDoc store i with
  | none => .error (.notFound "No document to update")
  | some d =>
      let newData : StoredData :=
        { d.data with
          status := match statusPayload with
            | some s => some s
            | none => d.data.status
          updated_at := some nowTs }
      let newStore := store.map (fun x => if x.id == i then { x with data := newData } else x)
      .ok (docToLead { id := d.id, data := newData }, newStore)

/-- `leadsService.delete` (`firestore.ts` lines 308-312): an
unconditional `deleteDoc` followed by `return { success: true }`.
Firestore's `deleteDoc` succeeds whether or not the document exists
(documented SDK semantics), so no existence check happens anywhere. -/
def leadsDelete (store : List FsDoc) (i : String) : Bool × List FsDoc :=
  (true, store.filter (fun d => !(d.id == i)))

/-- Modelled from the spec: the pagination rule the spec states for the
document-store adapter — slicing the filtered array to
`[(page-1)*limit, page*limit)`. Used only to compare against the
implemented slice in `getAll`. -/
def specPageSlice (page lim : Nat) (xs : List Lead) : List Lead :=
  (xs.drop ((page - 1) * lim)).take lim

/-- Builder for concrete stored documents used in concrete instances. -/
def mkDoc (i name : String) (cat st : Option String) (ts : Nat) : FsDoc :=
  { id := i, data := { business_name := name, category := cat, status := st, created_at := ts } }

/-- Two not-contacted leads, newest first once ordered. -/
def cexStoreA : List FsDoc :=
  [mkDoc "a" "x" none (some "new") 2, mkDoc "b" "y" none (some "new") 1]

/-- Eleven leads sharing category `c`: ten recent ones named `b` and one
oldest named `target`, which only a full-collection search can find. -/
def cexStoreB : List FsDoc :=
  (List.range 10).map (fun i => mkDoc (toString i) "b" (some "c") (some "new") (11 - i))
    ++ [mkDoc "t" "target" (some "c") (some "new") 1]

/-- Two leads in different categories with different contact states. -/
def cexStoreC : List FsDoc :=
  [mkDoc "a" "x" (some "a") (some "new") 2, mkDoc "b" "y" (some "b") (some "contacted") 1]

/-- A single-lead store. -/
def cexStoreD : List FsDoc := [mkDoc "a" "x" none (some "new") 2]

/-- A single lead already in the contacted group (status `qualified`). -/
def wDocE : FsDoc := mkDoc "e" "biz" none (some "qualified") 5

/-- Store holding only `wDocE`. -/
def wStoreE : List FsDoc := [wDocE]

/-- A single lead bearing category `shops`, for path-agreement instances. -/
def wStoreF : List FsDoc := [mkDoc "f" "Corner Shop" (some "shops") (some "new") 4]

/-- A normalized not-contacted lead as the dashboard sees it. -/
def wLeadNew : APILead := toAPILead (docToLead (mkDoc "w" "biz" none (some "new") 1))

/-- A stored document whose status field is absent. -/
def dEmpty : FsDoc := mkDoc "n" "biz" none none 3

/-- Store holding only `dEmpty`. -/
def store10 : List FsDoc := [dEmpty]

/-- Store holding one document with id `a`, so id `zzz` is absent. -/
def wStoreI : List FsDoc := [mkDoc "a" "x" none (some "new") 2]

/-- Inserting into the descending-ordered list grows the length by one. -/
theorem length_insertDesc (d : FsDoc) (l : List FsDoc) :
    (insertDesc d l).length = l.length + 1 := by
  induction l with
  | nil => rfl
  | cons x xs ih =>
      unfold insertDesc
      by_cases h : x.data.created_at ≤ d.data.created_at
      · simp [h]
      · simp [h, ih]

/-- Ordering the collection preserves its size. -/
theorem length_sortByCreatedDesc (l : List FsDoc) :
    (sortByCreatedDesc l).length = l.length := by
  induction l with
  | nil => rfl
  | cons x xs ih =>
      unfold sortByCreatedDesc
      rw [length_insertDesc, ih, List.length_cons]

/-- Membership through `insertDesc`. -/
theorem mem_insertDesc {a d : FsDoc} {l : List FsDoc} :
    a ∈ insertDesc d l ↔ a = d ∨ a ∈ l := by
  induction l with
  | nil => simp [insertDesc]
  | cons x xs ih =>
      unfold insertDesc
      by_cases h : x.data.created_at ≤ d.data.created_at
      · simp [h]
      · simp [h, ih]
        tauto

/-- Ordering the collection preserves membership. -/
theorem mem_sortByCreatedDesc {a : FsDoc} {l : List FsDoc} :
    a ∈ sortByCreatedDesc l ↔ a ∈ l := by
  induction l with
  | nil => simp [sortByCreatedDesc]
  | cons x xs ih =>
      unfold sortByCreatedDesc
      rw [mem_insertDesc, ih, List.mem_cons]

/-- Filtering after a map equals mapping after filtering through the map. -/
theorem filter_map_comm {α β : Type} (f : α → β) (p : β → Bool) (l : List α) :
    (l.map f).filter p = (l.filter (fun a => p (f a))).map f := by
  induction l with
  | nil => rfl
  | cons x xs ih =>
      by_cases h : p (f x) = true
      · simp [List.filter_cons, h, ih]
      · simp [List.filter_cons, h, ih]

/-- `Math.ceil(a / b)` is the least multiple bound: `a ≤ ⌈a/b⌉·b < a + b`. -/
theorem natCeilDiv_bounds (a b : Nat) (h : 0 < b) :
    a ≤ natCeilDiv a b * b ∧ natCeilDiv a b * b < a + b := by
  unfold natCeilDiv
  have h1 : (a + b - 1) / b * b ≤ a + b - 1 := Nat.div_mul_le_self _ _
  have h2 : a + b - 1 < (a + b - 1) / b * b + b := Nat.lt_div_mul_add h
  set x := (a + b - 1) / b * b with hx
  omega

/-- `getAll` returns the first `limit` records of the filtered array. -/
theorem getAll_data (store : List FsDoc) (ps : LeadsQueryParams) :
    (getAll store ps).data = (filteredLeads store ps).take ps.limit := rfl

/-- With no status filter the Firestore query is just the ordered
collection truncated at `limit`. -/
theorem fetchedDocs_all (store : List FsDoc) (n : Nat) :
    fetchedDocs store "all" n = (sortByCreatedDesc store).take n := by
  simp [fetchedDocs, statusFilteredDocs, fetchLimitOf]

/-- The ordered collection is whole when `n` bounds its size. -/
theorem take_sort_all (store : List FsDoc) (n : Nat) (h : store.length ≤ n) :
    (sortByCreatedDesc store).take n = sortByCreatedDesc store :=
  List.take_of_length_le (by rw [length_sortByCreatedDesc]; exact h)

/-- Shape of the filtered array when the status filter is `all`. -/
theorem filteredLeads_all (store : List FsDoc) (ps : LeadsQueryParams)
    (h : ps.status = "all") :
    filteredLeads store ps
      = clientSearchFiltered ps.search
          (((sortByCreatedDesc store).take ps.limit).map docToLead) := by
  simp [filteredLeads, h, clientStatusFiltered, fetchedDocs_all]

/-- The client-side search filter never grows the array. -/
theorem length_clientSearchFiltered_le (sq : Option String) (leads : List Lead) :
    (clientSearchFiltered sq leads).length ≤ leads.length := by
  cases sq with
  | none => exact Nat.le_refl _
  | some s =>
      unfold clientSearchFiltered
      by_cases h : (s == "") = true
      · simp [h]
      · simp [h]; exact List.length_filter_le _ _

/-- Every record of the filtered array is a normalized document. -/
theorem mem_filteredLeads_exists {store : List FsDoc} {ps : LeadsQueryParams}
    {l : Lead} (h : l ∈ filteredLeads store ps) : ∃ d, l = docToLead d := by
  unfold filteredLeads at h
  have h1 : l ∈ clientStatusFiltered ps.status
      ((fetchedDocs store ps.status ps.limit).map docToLead) := by
    unfold clientSearchFiltered at h
    rcases hps : ps.search with _ | s
    · rw [hps] at h; exact h
    · rw [hps] at h
      by_cases hs : (s == "") = true
      · simpa [hs] using h
      · simp only [hs] at h
        simp only [Bool.false_eq_true, if_false] at h
        exact (List.mem_filter.mp h).1
  have h2 : l ∈ (fetchedDocs store ps.status ps.limit).map docToLead := by
    unfold clientStatusFiltered at h1
    by_cases hs : (ps.status == "not_contacted") = true
    · simp only [hs, if_true] at h1
      exact (List.mem_filter.mp h1).1
    · simpa [hs] using h1
  obtain ⟨d, _, hd⟩ := List.mem_map.mp h2
  exact ⟨d, hd.symm⟩

/-- With no status filter and a collection that fits inside the fetch
window, `getAll` returns exactly the search-filtered ordered collection. -/
theorem thin_leads_eq (store : List FsDoc) (sq : Option String) (L pg : Nat)
    (hlen : store.length ≤ L) :
    (getAll store { status := "all", search := sq, page := pg, limit := L }).data
      = clientSearchFiltered sq ((sortByCreatedDesc store).map docToLead) := by
  show (clientSearchFiltered sq (((sortByCreatedDesc store).take L).map docToLead)).take L
      = clientSearchFiltered sq ((sortByCreatedDesc store).map docToLead)
  rw [take_sort_all store L hlen]
  exact List.take_of_length_le
    (le_trans (length_clientSearchFiltered_le _ _)
      (by rw [List.length_map, length_sortByCreatedDesc]; exact hlen))

/-- A non-empty search string reduces the search step to the name filter. -/
theorem clientSearchFiltered_some (s : String) (hs : (s == "") = false)
    (leads : List Lead) :
    clientSearchFiltered (some s) leads
      = leads.filter (fun l => leadNameIncludes l (jsToLower s)) := by
  simp [clientSearchFiltered, hs]

/-- Shape of the thick path's records when the snapshot passes the
category filter wholesale and the status filter is `all`. -/
theorem thickPath_all_leads (snap : List APILead) (catF s : String) (L : Nat)
    (hcat : ∀ al ∈ snap, categoryMatches catF al = true) :
    (thickPath snap catF "all" s 1 L).leads
      = (if s == "" then snap
         else snap.filter
           (fun l => strIncludes (jsToLower l.business_name) (jsToLower s))).take L := by
  unfold thickPath
  simp [List.filter_eq_self.mpr hcat]

/-- C2: refuted — the thin path evaluates the search filter only over a
fetch window of the `limit` most-recent records, while the thick path
evaluates it over the full snapshot; a matching lead older than the
window is returned by the thick path but missed by the thin path. -/
theorem C2_counterexample :
    (thinPath cexStoreB "all" "target" 1 10).leads = []
  ∧ (thickPath (fetchCategoriesSnapshot cexStoreB) "c" "all" "target" 1 10).leads
      = [toAPILead (docToLead (mkDoc "t" "target" (some "c") (some "new") 1))]
  ∧ (thinPath cexStoreB "all" "target" 1 10).leads
      ≠ (thickPath (fetchCategoriesSnapshot cexStoreB) "c" "all" "target" 1 10).leads := by
  decide

/-- C2 (amended): the two paths agree on status-only/search-only filters
only when the thin path's fetch window covers the whole collection — if
the collection fits within the requested limit (and the 1000-row
snapshot) and every snapshot lead matches the selected category, page 1
of both paths returns the same records; beyond that window the thin
path's truncated filtering can drop matches the thick path returns. -/
theorem C2_amended (store : List FsDoc) (catF s : String) (L : Nat)
    (hlen : store.length ≤ L) (hL : L ≤ 1000)
    (hcat : ∀ al ∈ fetchCategoriesSnapshot store, categoryMatches catF al = true) :
    (thinPath store "all" s 1 L).leads
      = (thickPath (fetchCategoriesSnapshot store) catF "all" s 1 L).leads := by
  have hlenN : ((sortByCreatedDesc store).map docToLead).length ≤ L := by
    rw [List.length_map, length_sortByCreatedDesc]; exact hlen
  have hsnap : fetchCategoriesSnapshot store
      = ((sortByCreatedDesc store).map docToLead).map toAPILead := by
    unfold fetchCategoriesSnapshot
    rw [thin_leads_eq store none 1000 1 (le_trans hlen hL)]
    rfl
  have hthin : (thinPath store "all" s 1 L).leads
      = (clientSearchFiltered (if s == "" then none else some s)
            ((sortByCreatedDesc store).map docToLead)).map toAPILead := by
    show List.map toAPILead (getAll store
        { status := "all", search := if s == "" then none else some s,
          page := 1, limit := L }).data
      = (clientSearchFiltered (if s == "" then none else some s)
            ((sortByCreatedDesc store).map docToLead)).map toAPILead
    rw [thin_leads_eq store _ L 1 hlen]
  rw [hthin, thickPath_all_leads _ _ _ _ hcat, hsnap]
  by_cases hs : (s == "") = true
  · rw [if_pos hs, if_pos hs]
    show ((sortByCreatedDesc store).map docToLead).map toAPILead
        = (((sortByCreatedDesc store).map docToLead).map toAPILead).take L
    exact (List.take_of_length_le (by rw [List.length_map]; exact hlenN)).symm
  · have hsf : (s == "") = false := Bool.eq_false_iff.mpr hs
    rw [if_neg hs, if_neg hs,
      clientSearchFiltered_some s hsf ((sortByCreatedDesc store).map docToLead)]
    have hfm := filter_map_comm toAPILead
      (fun l => strIncludes (jsToLower l.business_name) (jsToLower s))
      ((sortByCreatedDesc store).map docToLead)
    rw [hfm]
    rw [List.take_of_length_le
      (by rw [List.length_map]; exact le_trans (List.length_filter_le _ _) hlenN)]
    rfl

/-- C2 witness: the amended agreement evaluated at a one-lead store in
category `shops`, limit 10, searching for `shop`. -/
theorem C2_witness :
    (thinPath wStoreF "all" "shop" 1 10).leads
      = (thickPath (fetchCategoriesSnapshot wStoreF) "shops" "all" "shop" 1 10).leads :=
  C2_amended wStoreF "shops" "shop" 10 (by decide) (by decide) (by decide)

/-- C1: refuted at a two-lead store with limit 1 — pages 1 and 2 return
the same non-empty window, not disjoint consecutive slices, and page 2
differs from the spec's slice `[(page-1)*limit, page*limit)`. -/
theorem C1_counterexample :
    (getAll cexStoreA { page := 1, limit := 1 }).data
        = (getAll cexStoreA { page := 2, limit := 1 }).data
  ∧ (getAll cexStoreA { page := 1, limit := 1 }).data ≠ []
  ∧ (getAll cexStoreA { page := 2, limit := 1 }).data
        ≠ specPageSlice 2 1 (filteredLeads cexStoreA { page := 2, limit := 1 }) := by
  decide

/-- C1 (amended): pagination is applied last by slicing the filtered
array to `[0, limit)`; the page parameter is echoed in the response but
never affects the returned records, so two calls differing only in page
return identical windows. -/
theorem C1_amended (store : List FsDoc) (ps : LeadsQueryParams) (p q : Nat) :
    (getAll store { ps with page := p }).data
        = specPageSlice 1 ps.limit (filteredLeads store ps)
  ∧ (getAll store { ps with page := p }).data = (getAll store { ps with page := q }).data
  ∧ (getAll store { ps with page := p }).page = p := by
  refine ⟨?_, rfl, rfl⟩
  show (filteredLeads store ps).take ps.limit = specPageSlice 1 ps.limit (filteredLeads store ps)
  simp [specPageSlice]

/-- C3: refuted at the dashboard level — with a category filter active
the thick path replaces the global stats with stats recomputed from the
filtered subset. -/
theorem C3_counterexample :
    (thickPath (fetchCategoriesSnapshot cexStoreC) "a" "all" "" 1 10).stats
        ≠ getStats cexStoreC
  ∧ getStats cexStoreC = { all := 2, contacted := 1, notContacted := 1 }
  ∧ (thickPath (fetchCategoriesSnapshot cexStoreC) "a" "all" "" 1 10).stats
        = { all := 1, contacted := 0, notContacted := 1 } := by
  decide

/-- C3 (amended): the adapter's stats come from two whole-collection
count queries with `notContacted = all - contacted`, and are attached to
every `getAll` result unchanged by the active filters; the dashboard
shows these global stats on the thin path, but the thick path (category
filter active) recomputes stats from the filtered subset. -/
theorem C3_amended (store : List FsDoc) (ps : LeadsQueryParams)
    (statusF searchQ : String) (p L : Nat) :
    (getAll store ps).stats = getStats store
  ∧ (getStats store).all = store.length
  ∧ (getStats store).contacted = (store.filter storedStatusInContactedSet).length
  ∧ (getStats store).notContacted = (getStats store).all - (getStats store).contacted
  ∧ (thinPath store statusF searchQ p L).stats = getStats store :=
  ⟨rfl, rfl, rfl, rfl, rfl⟩

/-- C4: refuted — on an empty collection `totalPages` is 0, not 1, and a
page number beyond `totalPages` returns the same non-empty first window
instead of an empty record set. -/
theorem C4_counterexample :
    (getAll ([] : List FsDoc) {}).total = 0
  ∧ (getAll ([] : List FsDoc) {}).totalPages = 0
  ∧ (getAll cexStoreD { page := 2, limit := 10 }).totalPages = 1
  ∧ (getAll cexStoreD { page := 2, limit := 10 }).page = 2
  ∧ (getAll cexStoreD { page := 2, limit := 10 }).data ≠ [] := by
  decide

/-- C4 (amended): `totalPages` is the exact ceiling of `total / limit`
(hence 0, not 1, when the collection is empty), the data array never
exceeds `limit` records, and a page beyond `totalPages` is not an error
— it returns the same records as any other page. -/
theorem C4_amended (store : List FsDoc) (ps : LeadsQueryParams) (q : Nat)
    (h : 0 < ps.limit) :
    (getAll store ps).total ≤ (getAll store ps).totalPages * ps.limit
  ∧ (getAll store ps).totalPages * ps.limit < (getAll store ps).total + ps.limit
  ∧ (getAll store ps).data.length ≤ ps.limit
  ∧ (getAll store ps).data = (getAll store { ps with page := q }).data := by
  refine ⟨(natCeilDiv_bounds _ _ h).1, (natCeilDiv_bounds _ _ h).2, ?_, rfl⟩
  show ((filteredLeads store ps).take ps.limit).length ≤ ps.limit
  rw [List.length_take]
  exact Nat.min_le_left _ _

/-- C5: with status `contacted` the membership filter
`{contacted, qualified, converted}` is pushed into the store query and
the fetch window is `limit`; with status `not_contacted` the query is
unconstrained, fetches `3*limit` candidates ordered by creation
descending, and the not-contacted predicate is applied client-side
before the pagination slice. Every record returned under the contacted
filter carries a contacted-group status. -/
theorem C5 (store : List FsDoc) (L p : Nat) (s : Option String) :
    (∀ d ∈ fetchedDocs store "contacted" L, storedStatusInContactedSet d = true)
  ∧ fetchLimitOf "contacted" L = L
  ∧ fetchedDocs store "not_contacted" L = (sortByCreatedDesc store).take (L * 3)
  ∧ (getAll store { status := "not_contacted", search := s, page := p, limit := L }).data
      = (clientSearchFiltered s
          (((fetchedDocs store "not_contacted" L).map docToLead).filter notContactedLead)).take L
  ∧ (∀ l ∈ (getAll store { status := "contacted", search := none, page := p, limit := L }).data,
        l.status = some "contacted" ∨ l.status = some "qualified"
          ∨ l.status = some "converted") := by
  have hmem : ∀ d ∈ fetchedDocs store "contacted" L, storedStatusInContactedSet d = true := by
    intro d hd
    have h1 : d ∈ sortByCreatedDesc (statusFilteredDocs store "contacted") :=
      List.mem_of_mem_take hd
    rw [mem_sortByCreatedDesc] at h1
    have h2 : d ∈ store.filter storedStatusInContactedSet := by
      simpa [statusFilteredDocs] using h1
    exact (List.mem_filter.mp h2).2
  refine ⟨hmem, by simp [fetchLimitOf],
    by simp [fetchedDocs, statusFilteredDocs, fetchLimitOf], ?_, ?_⟩
  · rw [getAll_data]
    simp [filteredLeads, clientStatusFiltered]
  · intro l hl
    have h1 : l ∈ filteredLeads store
        { status := "contacted", search := none, page := p, limit := L } :=
      List.mem_of_mem_take hl
    have h2 : l ∈ (fetchedDocs store "contacted" L).map docToLead := by
      simpa [filteredLeads, clientSearchFiltered, clientStatusFiltered] using h1
    obtain ⟨d, hd, hld⟩ := List.mem_map.mp h2
    have hset : d.data.status = some "contacted" ∨ d.data.status = some "qualified"
        ∨ d.data.status = some "converted" := by
      simpa [storedStatusInContactedSet, Bool.or_eq_true, beq_iff_eq, or_assoc] using hmem d hd
    rw [← hld]
    rcases hset with h | h | h <;> simp [docToLead, h]

/-- C5 witness: the membership filter and the returned-status property
evaluated at a one-lead store whose lead has status `qualified`. -/
theorem C5_witness :
    storedStatusInContactedSet wDocE = true
  ∧ ((docToLead wDocE).status = some "contacted"
      ∨ (docToLead wDocE).status = some "qualified"
      ∨ (docToLead wDocE).status = some "converted") :=
  ⟨(C5 wStoreE 5 1 none).1 wDocE (by decide),
   (C5 wStoreE 5 1 none).2.2.2.2 (docToLead wDocE) (by decide)⟩

/-- C6: the contacted classification holds exactly on
`{contacted, qualified, converted}`, and a lead with status `new` or an
absent status classifies as not-contacted at the dashboard badge, the
thick-path status filters, the adapter's client-side not-contacted
predicate, and the store-side membership filter alike. -/
theorem C6 (al : APILead) (fl : Lead) (d : FsDoc) :
    (apiIsContacted al = true ↔
      (al.status = some "contacted" ∨ al.status = some "qualified"
        ∨ al.status = some "converted"))
  ∧ ((al.status = some "new" ∨ al.status = none) →
      apiIsContacted al = false ∧ apiNotContacted al = true)
  ∧ ((fl.status = some "new" ∨ fl.status = none) → notContactedLead fl = true)
  ∧ (storedStatusInContactedSet d = true ↔
      (d.data.status = some "contacted" ∨ d.data.status = some "qualified"
        ∨ d.data.status = some "converted")) := by
  refine ⟨?_, ?_, ?_, ?_⟩
  · simp [apiIsContacted, Bool.or_eq_true, beq_iff_eq, or_assoc]
  · rintro (h | h) <;> simp [apiIsContacted, apiNotContacted, statusFalsy, h]
  · rintro (h | h) <;> simp [notContactedLead, statusFalsy, h]
  · simp [storedStatusInContactedSet, Bool.or_eq_true, beq_iff_eq, or_assoc]

/-- C6 witness: the classification evaluated at a status-`new` lead, an
absent-status lead and a status-`qualified` lead/document. -/
theorem C6_witness :
    (apiIsContacted wLeadNew = false ∧ apiNotContacted wLeadNew = true)
  ∧ notContactedLead (docToLead dEmpty) = true
  ∧ storedStatusInContactedSet wDocE = true
  ∧ apiIsContacted (toAPILead (docToLead wDocE)) = true :=
  ⟨(C6 wLeadNew (docToLead dEmpty) wDocE).2.1 (Or.inl (by decide)),
   (C6 wLeadNew (docToLead dEmpty) wDocE).2.2.1 (Or.inl (by decide)),
   (C6 wLeadNew (docToLead dEmpty) wDocE).2.2.2.mpr (Or.inr (Or.inl rfl)),
   (C6 (toAPILead (docToLead wDocE)) (docToLead dEmpty) wDocE).1.mpr
     (Or.inr (Or.inl (by decide)))⟩

/-- C7: in the mark-contacted flow a note whose content (trimmed input)
has length 9 is rejected with a validation error before any backend call
is issued, while length 10 passes validation and the update call is
issued; the backend note service itself performs no length check. -/
theorem C7 (lead : APILead) (n9 n10 : String) (u us ns : Bool)
    (hlead : apiIsContacted lead = false)
    (h9 : (jsTrim n9).length = 9) (h10 : (jsTrim n10).length = 10) :
    ((handleSubmit lead n9 u us ns).validationError.isSome = true
      ∧ (handleSubmit lead n9 u us ns).updateCalled = false
      ∧ (handleSubmit lead n9 u us ns).noteCreateCalled = false)
  ∧ ((handleSubmit lead n10 u us ns).validationError = none
      ∧ (handleSubmit lead n10 u us ns).updateCalled = true)
  ∧ (∀ leadId content createdBy cm cd fid now,
      (notesCreate leadId content createdBy cm cd fid now).success = true) := by
  refine ⟨?_, ?_, fun _ _ _ _ _ _ _ => rfl⟩
  · simp [handleSubmit, hlead, h9]
  · cases us <;> simp [handleSubmit, hlead, h10]

/-- C7 witness: a 9-character note is rejected with no backend call and
a 10-character note passes validation, at a concrete not-contacted lead. -/
theorem C7_witness :
    ((handleSubmit wLeadNew "abcdefghi" true true true).validationError.isSome = true
      ∧ (handleSubmit wLeadNew "abcdefghi" true true true).updateCalled = false
      ∧ (handleSubmit wLeadNew "abcdefghi" true true true).noteCreateCalled = false)
  ∧ ((handleSubmit wLeadNew "abcdefghij" true true true).validationError = none
      ∧ (handleSubmit wLeadNew "abcdefghij" true true true).updateCalled = true) :=
  ⟨(C7 wLeadNew "abcdefghi" "abcdefghij" true true true
      (by decide) (by decide) (by decide)).1,
   (C7 wLeadNew "abcdefghi" "abcdefghij" true true true
      (by decide) (by decide) (by decide)).2.1⟩

/-- C8: when the status update succeeds and the note creation fails, the
status change persists, the operation reports success with no surfaced
error, and the note failure is only logged. -/
theorem C8 (lead : APILead) (notes : String)
    (hlead : apiIsContacted lead = false) (hlen : 10 ≤ (jsTrim notes).length) :
    (handleSubmit lead notes true true false).statusPersisted = true
  ∧ (handleSubmit lead notes true true false).reportedSuccess = true
  ∧ (handleSubmit lead notes true true false).surfacedError = none
  ∧ (handleSubmit lead notes true true false).validationError = none
  ∧ (handleSubmit lead notes true true false).noteCreateCalled = true
  ∧ (handleSubmit lead notes true true false).noteFailureLogged = true := by
  have hne : (jsTrim notes == "") = false := by
    cases h : (jsTrim notes == "") with
    | false => rfl
    | true =>
        exfalso
        have he : jsTrim notes = "" := eq_of_beq h
        rw [he] at hlen
        have h0 : ("" : String).length = 0 := rfl
        omega
  have hnotlt : ¬ ((jsTrim notes).length < 10) := by omega
  simp [handleSubmit, hlead, hnotlt, hne]

/-- C8 witness: the partial-failure tolerance evaluated at a concrete
not-contacted lead with a 10-character note. -/
theorem C8_witness :
    (handleSubmit wLeadNew "abcdefghij" true true false).statusPersisted = true
  ∧ (handleSubmit wLeadNew "abcdefghij" true true false).reportedSuccess = true
  ∧ (handleSubmit wLeadNew "abcdefghij" true true false).surfacedError = none
  ∧ (handleSubmit wLeadNew "abcdefghij" true true false).validationError = none
  ∧ (handleSubmit wLeadNew "abcdefghij" true true false).noteCreateCalled = true
  ∧ (handleSubmit wLeadNew "abcdefghij" true true false).noteFailureLogged = true :=
  C8 wLeadNew "abcdefghij" (by decide) (by decide)

/-- C9: refuted for delete — deleting an absent id performs an
unconditional idempotent delete and returns success, signalling no
NotFound condition. -/
theorem C9_counterexample :
    lookupDoc wStoreI "zzz" = none
  ∧ (leadsDelete wStoreI "zzz").1 = true
  ∧ (leadsDelete wStoreI "zzz").2 = wStoreI := by
  decide

/-- C9 (amended): for an absent id, get and update signal a NotFound
condition distinct from a transport failure, while delete performs no
existence check — it leaves the store unchanged and reports success. -/
theorem C9_amended (store : List FsDoc) (i : String) (h : lookupDoc store i = none) :
    leadsGetById store i = Except.error (ServiceError.notFound "Lead not found")
  ∧ (∀ sp now, leadsUpdate store i sp now
        = Except.error (ServiceError.notFound "No document to update"))
  ∧ (leadsDelete store i).1 = true
  ∧ (leadsDelete store i).2 = store
  ∧ (∀ m m2, ServiceError.notFound m ≠ ServiceError.transport m2) := by
  refine ⟨?_, ?_, rfl, ?_, ?_⟩
  · unfold leadsGetById; rw [h]
  · intro sp now; unfold leadsUpdate; rw [h]
  · show store.filter (fun d => !(d.id == i)) = store
    refine List.filter_eq_self.mpr ?_
    intro d hd
    have h2 := List.find?_eq_none.mp h d hd
    have h3 : (d.id == i) = false := Bool.eq_false_iff.mpr h2
    simp [h3]
  · intro m m2 hcon
    exact ServiceError.noConfusion hcon

/-- C9 witness: the amended behavior evaluated at a one-document store
and the absent id `zzz`. -/
theorem C9_witness :
    leadsGetById wStoreI "zzz" = Except.error (ServiceError.notFound "Lead not found")
  ∧ leadsUpdate wStoreI "zzz" (some "contacted") 7
        = Except.error (ServiceError.notFound "No document to update")
  ∧ (leadsDelete wStoreI "zzz").2 = wStoreI :=
  ⟨(C9_amended wStoreI "zzz" (by decide)).1,
   (C9_amended wStoreI "zzz" (by decide)).2.1 (some "contacted") 7,
   (C9_amended wStoreI "zzz" (by decide)).2.2.2.1⟩

/-- C10: the read-side normalization always yields a present status —
a missing or empty stored status becomes `new` — and every lead observed
through `getAll` or `getById` carries a present status. -/
theorem C10 (d : FsDoc) :
    ((docToLead d).status).isSome = true
  ∧ ((d.data.status = none ∨ d.data.status = some "") →
      (docToLead d).status = some "new")
  ∧ (∀ store ps l, l ∈ (getAll store ps).data → (l.status).isSome = true)
  ∧ (∀ store i r, leadsGetById store i = Except.ok r → (r.status).isSome = true) := by
  refine ⟨rfl, ?_, ?_, ?_⟩
  · rintro (h | h) <;> simp [docToLead, h]
  · intro store ps l hl
    have h1 : l ∈ (filteredLeads store ps).take ps.limit := hl
    have h2 : l ∈ filteredLeads store ps := List.mem_of_mem_take h1
    obtain ⟨dd, hdd⟩ := mem_filteredLeads_exists h2
    rw [hdd]; rfl
  · intro store i r hr
    unfold leadsGetById at hr
    cases hfind : lookupDoc store i with
    | none => rw [hfind] at hr; exact Except.noConfusion hr
    | some dd =>
        rw [hfind] at hr
        injection hr with hdd
        rw [← hdd]; rfl

/-- C10 witness: an absent-status document normalizes to status `new`,
and its lead as returned by `getAll` has a present status. -/
theorem C10_witness :
    (docToLead dEmpty).status = some "new"
  ∧ ((docToLead dEmpty).status).isSome = true :=
  ⟨(C10 dEmpty).2.1 (Or.inl rfl),
   (C10 dEmpty).2.2.1 store10 {} (docToLead dEmpty) (by decide)⟩

/-- C4 witness: the amended bounds evaluated at a one-lead store with
limit 10 and page 2. -/
theorem C4_witness :
    (getAll cexStoreD { page := 2, limit := 10 }).total
        ≤ (getAll cexStoreD { page := 2, limit := 10 }).totalPages * 10
  ∧ (getAll cexStoreD { page := 2, limit := 10 }).data.length ≤ 10 :=
  ⟨(C4_amended cexStoreD { page := 2, limit := 10 } 3 (by decide)).1,
   (C4_amended cexStoreD { page := 2, limit := 10 } 3 (by decide)).2.2.1⟩

end ClientLeads
